import Mathlib

/-!
Shallow embedding of the venue-matching engine of the twotable backend
(`app/services/matcher.py`, `app/services/routing.py`,
`app/services/embeddings.py`, `app/services/venue_embeddings.py`,
`app/api/v1/venues.py`, `app/schemas/suggest.py`).

Conventions of the embedding:
* Python float arithmetic is modelled exactly over `ℚ` (the claims under
  verification concern formulas and orderings at real-number semantics).
* Dates are day counts from a Monday epoch, so `date.weekday()` is `d % 7`;
  times of day are second counts from midnight.
* The SQL tables are finite lists of rows; the relational queries of the
  source become list filters over them.
* The transcendental haversine and the external HTTP providers appear as
  function parameters: every theorem proved about code that calls them
  holds for arbitrary behaviour of these collaborators.
-/

namespace TwoTable

/-- Python truthiness of an optional float: `None` and `0.0` are falsy. -/
def truthy : Option ℚ → Bool
  | none => false
  | some x => x != 0

/-- `app/models/venue.py`: the Venue columns read by the matching core. -/
structure Venue where
  id : Nat
  city : String
  is_active : Bool
  lat : Option ℚ
  lng : Option ℚ
deriving DecidableEq

/-- `app/models/venue_slot.py`: the VenueSlot columns read by the core. -/
structure VenueSlot where
  id : Nat
  venue_id : Nat
  weekday : Nat
  start_time : Nat
  end_time : Nat
  is_active : Bool
  max_tables_for_two : Nat
deriving DecidableEq

/-- `app/models/venue_blackout.py`: a blackout date range of one venue. -/
structure VenueBlackout where
  venue_id : Nat
  start_date : Nat
  end_date : Nat
deriving DecidableEq

/-- `app/models/booking.py`: `BookingStatus`. -/
inductive BookingStatus
  | pending
  | confirmed
  | cancelled
  | refunded
deriving DecidableEq

/-- `app/models/booking.py`: the Booking columns read by the load scorer. -/
structure Booking where
  slot_id : Nat
  booked_date : Nat
  status : BookingStatus
deriving DecidableEq

/-- `datetime.combine(target_date, target_time).weekday()`: with dates as
day counts from a Monday, Python's Monday-0 weekday is `d % 7`. -/
def pyWeekday (d : Nat) : Nat := d % 7

/-- `needle` occurs as a contiguous sublist of `hay` (the body of a SQL
`ILIKE '%needle%'` match, after lowercasing). -/
def containsSub (needle hay : List Char) : Bool :=
  match hay with
  | [] => needle.isEmpty
  | c :: t => needle.isPrefixOf (c :: t) || containsSub needle t

/-- `str.lower()` viewed on the character list (`String.map` itself is not
kernel-reducible; the list form is). -/
def lowerChars (s : String) : List Char := s.data.map Char.toLower

/-- `Venue.city.ilike(f"%{city}%")`: case-insensitive substring match. -/
def cityMatch (venueCity city : String) : Bool :=
  containsSub (lowerChars city) (lowerChars venueCity)

/-- The VenueSlot conditions of the Layer-1 join and of the load-factor slot
lookup (`matcher.py` lines 80-83 and 165-169): active slot of the venue on
the target weekday whose `[start_time, end_time)` window contains the
target time (end exclusive). -/
def slotMatches (s : VenueSlot) (vid wd t : Nat) : Bool :=
  s.venue_id == vid && s.is_active && s.weekday == wd &&
    decide (s.start_time ≤ t) && decide (t < s.end_time)

/-- The blackout condition of `matcher.py` lines 94-100:
`start_date ≤ target_date ≤ end_date`, both ends inclusive. -/
def blackoutCovers (b : VenueBlackout) (vid d : Nat) : Bool :=
  b.venue_id == vid && decide (b.start_date ≤ d) && decide (d ≤ b.end_date)

/-- The Layer-1 SQL join plus the blackout filter of
`_get_hard_filtered_candidates` (`matcher.py` lines 74-101): active venues
matching the city whose set of slots contains an active slot on the target
weekday covering the target time, minus venues with a blackout covering the
target date.  The `distinct` of the SQL join is the fact that each venue
occurs once however many slots match. -/
def availableVenues (venues : List Venue) (slots : List VenueSlot)
    (blackouts : List VenueBlackout) (city : String) (d t : Nat) : List Venue :=
  let wd := pyWeekday d
  let joined := venues.filter (fun v =>
    cityMatch v.city city && v.is_active &&
      slots.any (fun s => slotMatches s v.id wd t))
  joined.filter (fun v => !(blackouts.any (fun b => blackoutCovers b v.id d)))

/-- `_SPEED_KM_PER_MIN.get(mode, 0.5)` (`venues.py` lines 71-80): walk
0.083 km/min, drive 0.5, transit 0.4, any other mode the drive speed. -/
def speedKmPerMin (mode : String) : ℚ :=
  if mode = "walk" then 83/1000
  else if mode = "drive" then 1/2
  else if mode = "transit" then 2/5
  else 1/2

/-- `_SAFETY_FACTOR = 1.8` (`venues.py` line 76). -/
def safetyFactor : ℚ := 9/5

/-- `_max_radius_km` (`venues.py` lines 79-80). -/
def maxRadiusKm (mode : String) (maxMinutes : Nat) : ℚ :=
  speedKmPerMin mode * maxMinutes * safetyFactor

/-- `prefilter_by_distance` (`venues.py` lines 83-96).  The transcendental
`_haversine_km` is the parameter `havKm` (origin lat, origin lng, venue
lat, venue lng ↦ great-circle km); everything proved about the prefilter
holds for an arbitrary distance function. -/
def prefilterByDistance (havKm : ℚ → ℚ → ℚ → ℚ → ℚ) (venues : List Venue)
    (olat olng : ℚ) (mode : String) (maxTravelMin : Nat) : List Venue :=
  let radiusKm := maxRadiusKm mode maxTravelMin
  venues.filter (fun v =>
    match v.lat, v.lng with
    | some la, some ln => decide (havKm olat olng la ln ≤ radiusKm)
    | _, _ => false)

/-- `CandidateVenue` (`matcher.py` lines 30-33). -/
structure CandidateVenue where
  venue : Venue
  travel_minutes : Option ℚ
deriving DecidableEq

/-- One iteration of the TomTom loop of `_get_hard_filtered_candidates`
(`matcher.py` lines 122-136).  `originPresent` is
`origin_lat is not None and origin_lng is not None`; the venue-coordinate
test is Python truthiness (`venue.lat and venue.lng`), so a coordinate that
is `None` *or exactly `0.0`* skips the travel-time call.  `tt` maps a venue
id to the `get_travel_time` outcome for this request (`none` = provider
failure). -/
def gateStep (originPresent : Bool) (tt : Nat → Option ℚ) (maxTravelMinutes : Nat)
    (v : Venue) : Option CandidateVenue :=
  if originPresent && truthy v.lat && truthy v.lng then
    match tt v.id with
    | none => none
    | some m => if (maxTravelMinutes : ℚ) < m then none else some ⟨v, some m⟩
  else some ⟨v, none⟩

/-- The full TomTom loop (`matcher.py` lines 121-138). -/
def travelGate (originPresent : Bool) (tt : Nat → Option ℚ)
    (maxTravelMinutes : Nat) (venues : List Venue) : List CandidateVenue :=
  venues.filterMap (gateStep originPresent tt maxTravelMinutes)

/-- `_get_hard_filtered_candidates` (`matcher.py` lines 62-138): SQL join +
blackout filter, then the haversine prefilter when an origin is given, then
the travel-time gate.  The origin is a single `Option` pair: the source
tests `origin_lat is not None and origin_lng is not None` in both places,
and a request with only one coordinate set behaves exactly like `none`. -/
def hardFilteredCandidates (havKm : ℚ → ℚ → ℚ → ℚ → ℚ) (tt : Nat → Option ℚ)
    (venues : List Venue) (slots : List VenueSlot) (blackouts : List VenueBlackout)
    (city : String) (targetDate targetTime : Nat)
    (origin : Option (ℚ × ℚ)) (travelMode : String) (maxTravelMinutes : Nat) :
    List CandidateVenue :=
  let avail := availableVenues venues slots blackouts city targetDate targetTime
  let geo := match origin with
    | none => avail
    | some (olat, olng) =>
        prefilterByDistance havKm avail olat olng travelMode maxTravelMinutes
  travelGate origin.isSome tt maxTravelMinutes geo

/-- The clamped load arithmetic of `_get_load_factors` (`matcher.py` line
186): `min(booked / max(slot.max_tables_for_two, 1), 1.0)`. -/
def loadFactor (booked maxTablesForTwo : Nat) : ℚ :=
  min ((booked : ℚ) / ((max maxTablesForTwo 1 : Nat) : ℚ)) 1

/-- `_get_load_factors` for one venue (`matcher.py` lines 161-186): the
first slot (SQL `limit(1)`, `slots` in result order) matching the request's
weekday/time; `0.0` when none; otherwise the count of confirmed+pending
bookings of that slot on the target date over the slot capacity, clamped. -/
def getLoadFactor (slots : List VenueSlot) (bookings : List Booking)
    (venueId targetDate targetTime : Nat) : ℚ :=
  match slots.find? (fun s => slotMatches s venueId (pyWeekday targetDate) targetTime) with
  | none => 0
  | some slot =>
      let booked := (bookings.filter (fun b =>
        b.slot_id == slot.id && b.booked_date == targetDate &&
          (b.status == BookingStatus.confirmed || b.status == BookingStatus.pending))).length
      loadFactor booked slot.max_tables_for_two

/-- Layer 2 of `suggest_venues` (`matcher.py` lines 237-270): the
similarity score the final scoring reads for a venue id via
`similarity_map.get(vid, 0.5)`.  `embedded` is the list of candidate ids
having a `VenueEmbedding` row (`emb_count == 0` iff it is empty); `dist vid`
is the pgvector cosine distance of venue `vid`'s stored embedding from the
intent vector. -/
def simScore (embedded : List Nat) (dist : Nat → ℚ) (vid : Nat) : ℚ :=
  if embedded.isEmpty then 1/2
  else if embedded.contains vid then dist vid else 1/2

/-- `matcher.py` lines 247-248: the operator warning (`logger.warning`)
fires exactly when no candidate has an embedding row. -/
def noEmbeddingsWarning (embedded : List Nat) : Bool := embedded.isEmpty

/-- `_MAX_LOAD_PENALTY = 0.3` (`matcher.py` line 27). -/
def maxLoadPenalty : ℚ := 3/10

/-- The per-venue final score (`matcher.py` line 291):
`similarity * (1.0 + load_factor * _MAX_LOAD_PENALTY)`. -/
def finalScore (sim load : ℚ) : ℚ := sim * (1 + load * maxLoadPenalty)

/-- Python's comparison on the `(final_score, venue_id)` tuples that
`sorted` orders (`matcher.py` lines 288-296): lexicographic. -/
def scoreLex (a b : ℚ × Nat) : Prop :=
  a.1 < b.1 ∨ (a.1 = b.1 ∧ a.2 ≤ b.2)

instance : DecidableRel scoreLex := fun a b => by
  unfold scoreLex; infer_instance

instance : IsTotal (ℚ × Nat) scoreLex where
  total a b := by
    unfold scoreLex
    rcases lt_trichotomy a.1 b.1 with h | h | h
    · exact Or.inl (Or.inl h)
    · rcases Nat.le_total a.2 b.2 with h2 | h2
      · exact Or.inl (Or.inr ⟨h, h2⟩)
      · exact Or.inr (Or.inr ⟨h.symm, h2⟩)
    · exact Or.inr (Or.inl h)

instance : IsTrans (ℚ × Nat) scoreLex where
  trans a b c hab hbc := by
    unfold scoreLex at *
    rcases hab with h1 | ⟨h1, h1'⟩
    · rcases hbc with h2 | ⟨h2, _⟩
      · exact Or.inl (h1.trans h2)
      · exact Or.inl (h2 ▸ h1)
    · rcases hbc with h2 | ⟨h2, h2'⟩
      · exact Or.inl (h1 ▸ h2)
      · exact Or.inr ⟨h1.trans h2, h1'.trans h2'⟩

instance : IsAntisymm (ℚ × Nat) scoreLex where
  antisymm a b hab hba := by
    unfold scoreLex at *
    rcases hab with h1 | ⟨h1, h1'⟩
    · rcases hba with h2 | ⟨h2, _⟩
      · exact absurd (h1.trans h2) (lt_irrefl _)
      · exact absurd h1 (h2 ▸ lt_irrefl _)
    · rcases hba with h2 | ⟨h2, h2'⟩
      · exact absurd h2 (h1 ▸ lt_irrefl _)
      · exact Prod.ext h1 (Nat.le_antisymm h1' h2')

/-- The scored list before sorting (`matcher.py` lines 288-295):
`(final_score, venue_id)` per candidate id. -/
def scoredList (sim load : Nat → ℚ) (candidateIds : List Nat) : List (ℚ × Nat) :=
  candidateIds.map (fun vid => (finalScore (sim vid) (load vid), vid))

/-- `sorted(...)` of `matcher.py` line 288.  On an antisymmetric total
order the sorted permutation is unique, so `List.insertionSort` computes
exactly what Python's `sorted` returns on these tuples. -/
def rankedAll (sim load : Nat → ℚ) (candidateIds : List Nat) : List (ℚ × Nat) :=
  List.insertionSort scoreLex (scoredList sim load candidateIds)

/-- `scored[: req.top_n]` (`matcher.py` line 297). -/
def rankedTop (sim load : Nat → ℚ) (candidateIds : List Nat) (topN : Nat) :
    List (ℚ × Nat) :=
  (rankedAll sim load candidateIds).take topN

/-- The pydantic default of `top_n` (`schemas/suggest.py` line 55). -/
def topNDefault : Nat := 3

/-- The pydantic bounds of `top_n`: `ge=1, le=10`. -/
def topNValid (n : Nat) : Bool := decide (1 ≤ n) && decide (n ≤ 10)

/-- The `SuggestRequest` fields (`schemas/suggest.py` lines 42-56) that the
matching core reads; the enum-valued fields are carried as their `.value`
strings. -/
structure SuggestRequest where
  city : String
  origin_lat : Option ℚ
  origin_lng : Option ℚ
  travel_mode : String
  max_travel_minutes : Nat
  date : Nat
  time : Nat
  stage : String
  mood : String
  energy : String
  budget : String
  free_text : Option String
  top_n : Nat
  session_id : Option String
deriving DecidableEq

/-- Python `round(x, 3)`, modelled with round-half-up; the half-to-even
difference of Python's banker's rounding is immaterial to every statement
proved here (no value sits on a half-thousandth boundary). -/
def round3 (q : ℚ) : ℚ := (round (q * 1000) : ℤ) / 1000

/-- Python `x or 0` on an optional float: `None` and `0.0` are both falsy
and give the integer `0`. -/
def pyOrZero : Option ℚ → ℚ
  | none => 0
  | some x => if x = 0 then 0 else x

/-- `_suggest_cache_key` (`matcher.py` lines 38-46): the md5 of the
`|`-joined f-string of the request fields, with each origin coordinate
passed through `round(req.origin_lat or 0, 3)`.  The key is modelled as the
tuple of the formatted fields — two requests get the same md5 digest
whenever these tuples are equal. -/
def suggestCacheKey (req : SuggestRequest) :
    String × Nat × Nat × ℚ × ℚ × String × Nat ×
      String × String × String × String × String × Nat :=
  (req.city, req.date, req.time,
   round3 (pyOrZero req.origin_lat), round3 (pyOrZero req.origin_lng),
   req.travel_mode, req.max_travel_minutes,
   req.stage, req.mood, req.energy, req.budget,
   req.free_text.getD "", req.top_n)

/-- The Redis suggest-cache read of `matcher.py` lines 209-214: a lookup of
the whole-pipeline cache under the request's key. -/
def suggestCacheLookup {V : Type} (store : (String × Nat × Nat × ℚ × ℚ × String × Nat ×
      String × String × String × String × String × Nat) → Option V)
    (req : SuggestRequest) : Option V :=
  store (suggestCacheKey req)

/-- Python `round(x, 1)` (same half-up caveat as `round3`). -/
def round1 (q : ℚ) : ℚ := (round (q * 10) : ℤ) / 10

/-- The Python exceptions `_fetch_tomtom`'s payload handling can raise
(`routing.py` lines 67-72): `KeyError` and `IndexError` are caught by its
`except` clause; `TypeError` and `json.JSONDecodeError` are not. -/
inductive PyExc
  | keyError
  | indexError
  | typeError
  | jsonDecodeError
deriving DecidableEq

/-- A parsed JSON value — what `resp.json()` returns when the body parses. -/
inductive Json
  | null
  | bool (b : Bool)
  | num (q : ℚ)
  | str (s : String)
  | arr (xs : List Json)
  | obj (fields : List (String × Json))

/-- Python `x[key]` for a string key: dict lookup (missing key →
`KeyError`; for duplicate JSON keys Python's parser keeps the last, hence
the reversed search); every other value — list, str, number, bool, null —
raises `TypeError`. -/
def Json.getStr : Json → String → Except PyExc Json
  | .obj fields, key =>
      match fields.reverse.find? (fun f => f.1 == key) with
      | some f => .ok f.2
      | none => .error .keyError
  | _, _ => .error .typeError

/-- Python `x[i]` for an integer index: list indexing (out of range →
`IndexError`), string indexing (a one-character string, or `IndexError`),
dict lookup under the integer key (always absent in a JSON-derived dict →
`KeyError`); numbers, bools and null raise `TypeError`. -/
def Json.getIdx : Json → Nat → Except PyExc Json
  | .arr xs, i =>
      match xs.get? i with
      | some x => .ok x
      | none => .error .indexError
  | .obj _, _ => .error .keyError
  | .str s, i =>
      match s.data.get? i with
      | some c => .ok (.str (String.mk [c]))
      | none => .error .indexError
  | _, _ => .error .typeError

/-- `data["routes"][0]["summary"]["travelTimeInSeconds"]` followed by
`seconds / 60` (`routing.py` lines 69-70) with Python's exception
semantics: each subscript can raise as in `Json.getStr`/`Json.getIdx`, and
the division accepts a number (a bool divides like an int) but raises
`TypeError` on anything else. -/
def extractSeconds (data : Json) : Except PyExc ℚ := do
  let routes ← data.getStr "routes"
  let r0 ← routes.getIdx 0
  let summary ← r0.getStr "summary"
  let secs ← summary.getStr "travelTimeInSeconds"
  match secs with
  | .num q => .ok (q / 60)
  | .bool b => .ok ((if b then 1 else 0) / 60)
  | _ => .error .typeError

/-- An HTTP response as `_fetch_tomtom` sees it: the status code, and
`some` parsed JSON value when the body is valid JSON or `none` when
`resp.json()` would raise `json.JSONDecodeError`. -/
structure HttpResponse where
  status_code : Nat
  body : Option Json

/-- `_fetch_tomtom`'s response handling (`routing.py` lines 64-72),
exception paths included: non-200 → `None`; `data = resp.json()` runs
OUTSIDE the `try`, so an invalid-JSON body raises uncaught; inside the
`try` only `KeyError` and `IndexError` are converted to `None`, while a
`TypeError` from a wrongly-typed payload propagates.  `Except.error`
models an exception escaping `_fetch_tomtom` (and `get_travel_time`, which
does not catch it either). -/
def fetchTomtom (resp : HttpResponse) : Except PyExc (Option ℚ) :=
  if resp.status_code ≠ 200 then .ok none
  else
    match resp.body with
    | none => .error .jsonDecodeError
    | some data =>
        match extractSeconds data with
        | .ok minutes => .ok (some (round1 minutes))
        | .error .keyError => .ok none
        | .error .indexError => .ok none
        | .error e => .error e

/-- `get_travel_time` (`routing.py` lines 117-175) with the DB cache and
the provider HTTP calls abstracted: `cacheFresh` is the cached minutes when
a non-expired cache row exists, `fetch p` the outcome of provider `p`'s
one-shot HTTP call.  `Except.error` models the uncaught `ValueError` of
lines 158-159, which aborts the enclosing request; note it is only reached
on a cache miss, at request time. -/
def getTravelTime (cacheFresh : Option ℚ) (provider : String)
    (fetch : String → Option ℚ) : Except String (Option ℚ) :=
  match cacheFresh with
  | some m => Except.ok (some m)
  | none =>
      if provider = "tomtom" then Except.ok (fetch "tomtom")
      else if provider = "openrouteservice" then Except.ok (fetch "openrouteservice")
      else if provider = "mapbox" then Except.ok (fetch "mapbox")
      else Except.error ("Unknown routing provider: " ++ provider)

/-- `_build_provider` of `embeddings.py` lines 202-211, which the module
runs once at import time (line 215) to build the provider singleton — i.e.
at service startup: the recognised provider kind, or the fatal
`ValueError`. -/
def buildEmbeddingProvider (name : String) : Except String String :=
  let n := lowerChars name
  if n = "local".data then Except.ok "local"
  else if n = "gemini".data then Except.ok "gemini"
  else Except.error ("Unknown EMBEDDING_PROVIDER=" ++ String.mk n)

/-- The candidate ids of `suggest_venues` (`matcher.py` line 232). -/
def candidateIdsOf (havKm : ℚ → ℚ → ℚ → ℚ → ℚ) (tt : Nat → Option ℚ)
    (venues : List Venue) (slots : List VenueSlot) (blackouts : List VenueBlackout)
    (city : String) (targetDate targetTime : Nat)
    (origin : Option (ℚ × ℚ)) (travelMode : String) (maxTravelMinutes : Nat) :
    List Nat :=
  (hardFilteredCandidates havKm tt venues slots blackouts city targetDate targetTime
      origin travelMode maxTravelMinutes).map (fun c => c.venue.id)

/-- The candidate ids that own a `VenueEmbedding` row (`matcher.py` lines
238-258); `embeddedAll` is the set of venue ids present in the
venue-embeddings table. -/
def embeddedCandidatesOf (havKm : ℚ → ℚ → ℚ → ℚ → ℚ) (tt : Nat → Option ℚ)
    (venues : List Venue) (slots : List VenueSlot) (blackouts : List VenueBlackout)
    (city : String) (targetDate targetTime : Nat)
    (origin : Option (ℚ × ℚ)) (travelMode : String) (maxTravelMinutes : Nat)
    (embeddedAll : List Nat) : List Nat :=
  (candidateIdsOf havKm tt venues slots blackouts city targetDate targetTime
      origin travelMode maxTravelMinutes).filter (fun vid => embeddedAll.contains vid)

/-- The cache-miss path of `suggest_venues` (`matcher.py` lines 216-341),
returning the ranked `(final_score, venue_id)` pairs together with whether
an intent-embedding log row was committed.  `logOk` is whether the DB
insert inside `log_intent_embedding` (`venue_embeddings.py` lines 155-172)
succeeds; on failure that function rolls back, logs a warning and returns
normally, so the ranked result never depends on it.  The log write is only
reached in the `emb_count != 0` branch (`matcher.py` lines 250-277). -/
def suggestVenues (havKm : ℚ → ℚ → ℚ → ℚ → ℚ) (tt : Nat → Option ℚ)
    (venues : List Venue) (slots : List VenueSlot) (blackouts : List VenueBlackout)
    (city : String) (targetDate targetTime : Nat)
    (origin : Option (ℚ × ℚ)) (travelMode : String) (maxTravelMinutes : Nat)
    (embeddedAll : List Nat) (dist : Nat → ℚ) (bookings : List Booking)
    (topN : Nat) (logOk : Bool) : List (ℚ × Nat) × Bool :=
  let ids := candidateIdsOf havKm tt venues slots blackouts city targetDate targetTime
      origin travelMode maxTravelMinutes
  if ids.isEmpty then ([], false)
  else
    let embCand := embeddedCandidatesOf havKm tt venues slots blackouts city
        targetDate targetTime origin travelMode maxTravelMinutes embeddedAll
    (rankedTop (simScore embCand dist)
        (fun vid => getLoadFactor slots bookings vid targetDate targetTime) ids topN,
      !embCand.isEmpty && logOk)

/-! ## Helper lemmas -/

theorem slotMatches_iff {s : VenueSlot} {vid wd t : Nat} :
    slotMatches s vid wd t = true ↔
      s.venue_id = vid ∧ s.is_active = true ∧ s.weekday = wd ∧
        s.start_time ≤ t ∧ t < s.end_time := by
  simp only [slotMatches, Bool.and_eq_true, decide_eq_true_eq, beq_iff_eq]
  tauto

theorem blackoutCovers_iff {b : VenueBlackout} {vid d : Nat} :
    blackoutCovers b vid d = true ↔
      b.venue_id = vid ∧ b.start_date ≤ d ∧ d ≤ b.end_date := by
  simp only [blackoutCovers, Bool.and_eq_true, decide_eq_true_eq, beq_iff_eq]
  tauto

theorem mem_availableVenues {v : Venue} {venues : List Venue}
    {slots : List VenueSlot} {blackouts : List VenueBlackout}
    {city : String} {d t : Nat} :
    v ∈ availableVenues venues slots blackouts city d t ↔
      v ∈ venues ∧ cityMatch v.city city = true ∧ v.is_active = true ∧
        (∃ s ∈ slots, slotMatches s v.id (pyWeekday d) t = true) ∧
        ∀ b ∈ blackouts, blackoutCovers b v.id d = false := by
  simp only [availableVenues, List.mem_filter, Bool.not_eq_true',
    List.any_eq_false, List.any_eq_true, Bool.and_eq_true, Bool.not_eq_true]
  tauto

theorem gateStep_venue {originPresent : Bool} {tt : Nat → Option ℚ}
    {maxTravelMinutes : Nat} {v : Venue} {c : CandidateVenue}
    (h : gateStep originPresent tt maxTravelMinutes v = some c) : c.venue = v := by
  unfold gateStep at h
  split at h
  · split at h
    · cases h
    · split at h
      · cases h
      · cases h; rfl
  · cases h; rfl

theorem mem_travelGate {originPresent : Bool} {tt : Nat → Option ℚ}
    {maxTravelMinutes : Nat} {venues : List Venue} {c : CandidateVenue} :
    c ∈ travelGate originPresent tt maxTravelMinutes venues ↔
      ∃ v ∈ venues, gateStep originPresent tt maxTravelMinutes v = some c := by
  simp [travelGate, List.mem_filterMap]

theorem mem_prefilter_subset {havKm : ℚ → ℚ → ℚ → ℚ → ℚ} {venues : List Venue}
    {olat olng : ℚ} {mode : String} {maxTravelMin : Nat} {v : Venue}
    (h : v ∈ prefilterByDistance havKm venues olat olng mode maxTravelMin) :
    v ∈ venues :=
  (List.mem_filter.mp h).1

theorem hardFiltered_venue_available
    {havKm : ℚ → ℚ → ℚ → ℚ → ℚ} {tt : Nat → Option ℚ}
    {venues : List Venue} {slots : List VenueSlot} {blackouts : List VenueBlackout}
    {city : String} {targetDate targetTime : Nat}
    {origin : Option (ℚ × ℚ)} {travelMode : String} {maxTravelMinutes : Nat}
    {c : CandidateVenue}
    (h : c ∈ hardFilteredCandidates havKm tt venues slots blackouts city
      targetDate targetTime origin travelMode maxTravelMinutes) :
    c.venue ∈ availableVenues venues slots blackouts city targetDate targetTime := by
  unfold hardFilteredCandidates at h
  obtain ⟨v, hv, hstep⟩ := mem_travelGate.mp h
  rw [gateStep_venue hstep]
  rcases origin with _ | ⟨olat, olng⟩
  · exact hv
  · exact mem_prefilter_subset hv

theorem mem_scoredList {sim load : Nat → ℚ} {ids : List Nat} {p : ℚ × Nat} :
    p ∈ scoredList sim load ids ↔
      p.2 ∈ ids ∧ p.1 = finalScore (sim p.2) (load p.2) := by
  simp only [scoredList, List.mem_map]
  constructor
  · rintro ⟨vid, hvid, rfl⟩; exact ⟨hvid, rfl⟩
  · rintro ⟨hvid, hp⟩
    exact ⟨p.2, hvid, by rw [← hp]⟩

theorem rankedAll_perm (sim load : Nat → ℚ) (ids : List Nat) :
    (rankedAll sim load ids).Perm (scoredList sim load ids) :=
  List.perm_insertionSort scoreLex _

theorem sorted_rankedAll (sim load : Nat → ℚ) (ids : List Nat) :
    (rankedAll sim load ids).Sorted scoreLex :=
  List.sorted_insertionSort scoreLex _

theorem mem_rankedAll {sim load : Nat → ℚ} {ids : List Nat} {p : ℚ × Nat} :
    p ∈ rankedAll sim load ids ↔ p.2 ∈ ids ∧ p.1 = finalScore (sim p.2) (load p.2) :=
  (rankedAll_perm sim load ids).mem_iff.trans mem_scoredList

theorem length_rankedAll (sim load : Nat → ℚ) (ids : List Nat) :
    (rankedAll sim load ids).length = ids.length := by
  rw [(rankedAll_perm sim load ids).length_eq, scoredList, List.length_map]

theorem mem_rankedTop {sim load : Nat → ℚ} {ids : List Nat} {topN : Nat}
    {p : ℚ × Nat} (h : p ∈ rankedTop sim load ids topN) :
    p.2 ∈ ids ∧ p.1 = finalScore (sim p.2) (load p.2) :=
  mem_rankedAll.mp ((List.take_subset _ _) h)

theorem length_rankedTop (sim load : Nat → ℚ) (ids : List Nat) (topN : Nat) :
    (rankedTop sim load ids topN).length = min topN ids.length := by
  rw [rankedTop, List.length_take, length_rankedAll]

theorem speedKmPerMin_pos (mode : String) : 0 < speedKmPerMin mode := by
  unfold speedKmPerMin
  split_ifs <;> norm_num

theorem mem_prefilter_iff {havKm : ℚ → ℚ → ℚ → ℚ → ℚ} {venues : List Venue}
    {olat olng : ℚ} {mode : String} {maxTravelMin : Nat} {v : Venue} :
    v ∈ prefilterByDistance havKm venues olat olng mode maxTravelMin ↔
      v ∈ venues ∧ ∃ la ln, v.lat = some la ∧ v.lng = some ln ∧
        havKm olat olng la ln ≤ maxRadiusKm mode maxTravelMin := by
  rw [prefilterByDistance, List.mem_filter]
  constructor
  · rintro ⟨h1, h2⟩
    refine ⟨h1, ?_⟩
    rcases hla : v.lat with _ | la <;> rcases hln : v.lng with _ | ln <;>
      simp [hla, hln] at h2
    · exact ⟨la, ln, rfl, rfl, h2⟩
  · rintro ⟨h1, la, ln, hla, hln, hle⟩
    exact ⟨h1, by simp [hla, hln, hle]⟩

theorem travelGate_congr {tt tt' : Nat → Option ℚ} {maxTravelMinutes : Nat}
    {venues : List Venue}
    (h : ∀ w ∈ venues, (truthy w.lat && truthy w.lng) = true → tt w.id = tt' w.id) :
    travelGate true tt maxTravelMinutes venues
      = travelGate true tt' maxTravelMinutes venues := by
  unfold travelGate
  induction venues with
  | nil => rfl
  | cons w rest ih =>
    have hstep : gateStep true tt maxTravelMinutes w
        = gateStep true tt' maxTravelMinutes w := by
      unfold gateStep
      by_cases hc : (true && truthy w.lat && truthy w.lng) = true
      · rw [if_pos hc, if_pos hc, h w (List.mem_cons_self _ _) (by simpa using hc)]
      · rw [if_neg hc, if_neg hc]
    rw [List.filterMap_cons, List.filterMap_cons, hstep,
      ih (fun u hu hc => h u (List.mem_cons_of_mem _ hu) hc)]

theorem loadFactor_nonneg (booked cap : Nat) : 0 ≤ loadFactor booked cap := by
  unfold loadFactor
  apply le_min _ zero_le_one
  positivity

theorem loadFactor_le_one (booked cap : Nat) : loadFactor booked cap ≤ 1 :=
  min_le_right _ _

theorem getLoadFactor_nonneg (slots : List VenueSlot) (bookings : List Booking)
    (venueId targetDate targetTime : Nat) :
    0 ≤ getLoadFactor slots bookings venueId targetDate targetTime := by
  unfold getLoadFactor
  split
  · exact le_refl 0
  · exact loadFactor_nonneg _ _

theorem getLoadFactor_le_one (slots : List VenueSlot) (bookings : List Booking)
    (venueId targetDate targetTime : Nat) :
    getLoadFactor slots bookings venueId targetDate targetTime ≤ 1 := by
  unfold getLoadFactor
  split
  · exact zero_le_one
  · exact loadFactor_le_one _ _

/-! ## Claims -/

/-- C1: for every candidate venue the final score equals
`similarity_distance * (1 + load_factor * 0.3)` with the load factor
clamped to `[0,1]` (so the multiplier never exceeds 1.3); the result list
is sorted ascending by this score and truncated to `top_n`
(request-specified, bounded to `[1,10]`, default 3); and in the spec's
concrete scenario — venue 1 = A at load 0.0 / distance 0.10, venue 2 = B at
load 0.8 / distance 0.08 — the scores are 0.10 and 0.0992 and B ranks
first. -/
theorem C1_score_formula_sort_truncate
    (sim load : Nat → ℚ) (ids : List Nat) (topN : Nat) :
    (∀ p ∈ rankedTop sim load ids topN, p.1 = sim p.2 * (1 + load p.2 * (3/10)))
    ∧ (∀ booked cap : Nat,
        0 ≤ loadFactor booked cap ∧ loadFactor booked cap ≤ 1 ∧
          1 + loadFactor booked cap * maxLoadPenalty ≤ 13/10)
    ∧ (rankedTop sim load ids topN).Sorted (fun a b => a.1 ≤ b.1)
    ∧ (rankedTop sim load ids topN).length = min topN ids.length
    ∧ topNDefault = 3 ∧ (∀ n, topNValid n = true ↔ 1 ≤ n ∧ n ≤ 10)
    ∧ rankedTop (fun v => if v = 1 then 1/10 else 2/25)
        (fun v => if v = 1 then 0 else 4/5) [1, 2] 3
        = [(62/625, 2), (1/10, 1)] := by
  refine ⟨?_, ?_, ?_, length_rankedTop sim load ids topN, rfl, ?_, ?_⟩
  · intro p hp
    exact (mem_rankedTop hp).2
  · intro booked cap
    refine ⟨loadFactor_nonneg booked cap, loadFactor_le_one booked cap, ?_⟩
    have h1 := loadFactor_le_one booked cap
    have h0 := loadFactor_nonneg booked cap
    have : loadFactor booked cap * maxLoadPenalty ≤ 1 * maxLoadPenalty :=
      mul_le_mul_of_nonneg_right h1 (by norm_num [maxLoadPenalty])
    rw [one_mul, maxLoadPenalty] at this
    show 1 + loadFactor booked cap * maxLoadPenalty ≤ 13/10
    rw [maxLoadPenalty]
    linarith
  · exact (List.Pairwise.sublist (List.take_sublist topN _)
        (sorted_rankedAll sim load ids)).imp
      (fun h => h.elim le_of_lt (fun he => le_of_eq he.1))
  · intro n
    simp [topNValid]
  · norm_num [rankedTop, rankedAll, scoredList, finalScore, maxLoadPenalty,
      List.insertionSort, List.orderedInsert, scoreLex]

/-- Witness for C1: the hypothesis-bearing conjuncts instantiated — the
pair `(0.0992, 2)` is in the ranked list of the concrete scenario and obeys
the formula, the load bounds hold at `booked=3, cap=4`, and `top_n = 10` is
accepted by the schema bounds. -/
theorem C1_score_formula_sort_truncate_witness :
    ((62/625 : ℚ), 2) ∈ rankedTop (fun v => if v = 1 then 1/10 else 2/25)
        (fun v => if v = 1 then 0 else 4/5) [1, 2] 3
    ∧ (62/625 : ℚ) = (2/25 : ℚ) * (1 + (4/5 : ℚ) * (3/10))
    ∧ 0 ≤ loadFactor 3 4 ∧ loadFactor 3 4 ≤ 1
    ∧ topNValid 10 = true := by
  have h := C1_score_formula_sort_truncate (fun v => if v = 1 then 1/10 else 2/25)
      (fun v => if v = 1 then 0 else 4/5) [1, 2] 3
  have hm : ((62/625 : ℚ), 2) ∈ rankedTop (fun v => if v = 1 then 1/10 else 2/25)
      (fun v => if v = 1 then 0 else 4/5) [1, 2] 3 := by
    rw [h.2.2.2.2.2.2]
    exact List.mem_cons_self _ _
  refine ⟨hm, ?_, (h.2.1 3 4).1, (h.2.1 3 4).2.1, (h.2.2.2.2.2.1 10).mpr (by norm_num)⟩
  have := h.1 _ hm
  simpa using this

/-- C2: a venue appears among the suggest candidates only if it is active,
has an active slot on the target date's weekday whose `[start_time,
end_time)` half-open window contains the target time (a slot whose
`end_time` equals the requested time is excluded), and has no blackout with
`start_date ≤ target date ≤ end_date` (both ends inclusive). -/
theorem C2_availability_hard_filter
    (havKm : ℚ → ℚ → ℚ → ℚ → ℚ) (tt : Nat → Option ℚ)
    (venues : List Venue) (slots : List VenueSlot) (blackouts : List VenueBlackout)
    (city : String) (targetDate targetTime : Nat)
    (origin : Option (ℚ × ℚ)) (travelMode : String) (maxTravelMinutes : Nat)
    (c : CandidateVenue)
    (hc : c ∈ hardFilteredCandidates havKm tt venues slots blackouts city
      targetDate targetTime origin travelMode maxTravelMinutes) :
    c.venue.is_active = true
    ∧ (∃ s ∈ slots, s.venue_id = c.venue.id ∧ s.is_active = true ∧
        s.weekday = pyWeekday targetDate ∧
        s.start_time ≤ targetTime ∧ targetTime < s.end_time)
    ∧ (∀ b ∈ blackouts, b.venue_id = c.venue.id →
        ¬(b.start_date ≤ targetDate ∧ targetDate ≤ b.end_date)) := by
  have hav := hardFiltered_venue_available hc
  obtain ⟨-, -, hact, ⟨s, hs, hsm⟩, hbl⟩ := mem_availableVenues.mp hav
  obtain ⟨h1, h2, h3, h4, h5⟩ := slotMatches_iff.mp hsm
  refine ⟨hact, ⟨s, hs, h1, h2, h3, h4, h5⟩, ?_⟩
  intro b hb hbv hcov
  have hf := hbl b hb
  rw [blackoutCovers_iff.mpr ⟨hbv, hcov.1, hcov.2⟩] at hf
  cases hf

/-- Witness for C2: in a one-venue world (active venue 1 with an active
slot on weekday 0 from second 10 to 100, no blackout, date 7, time 50, no
origin) the venue is a candidate, and the theorem yields its activity and a
matching slot. -/
theorem C2_availability_hard_filter_witness :
    (⟨⟨1, "", true, none, none⟩, none⟩ : CandidateVenue) ∈
      hardFilteredCandidates (fun _ _ _ _ => 0) (fun _ => none)
        [⟨1, "", true, none, none⟩] [⟨5, 1, 0, 10, 100, true, 4⟩] []
        "" 7 50 none "drive" 45
    ∧ (⟨1, "", true, none, none⟩ : Venue).is_active = true
    ∧ (∃ s ∈ [(⟨5, 1, 0, 10, 100, true, 4⟩ : VenueSlot)],
        s.venue_id = 1 ∧ s.is_active = true ∧ s.weekday = pyWeekday 7 ∧
        s.start_time ≤ 50 ∧ 50 < s.end_time) := by
  have hm : (⟨⟨1, "", true, none, none⟩, none⟩ : CandidateVenue) ∈
      hardFilteredCandidates (fun _ _ _ _ => 0) (fun _ => none)
        [⟨1, "", true, none, none⟩] [⟨5, 1, 0, 10, 100, true, 4⟩] []
        "" 7 50 none "drive" 45 := by
    decide
  have h := C2_availability_hard_filter (fun _ _ _ _ => 0) (fun _ => none)
      [⟨1, "", true, none, none⟩] [⟨5, 1, 0, 10, 100, true, 4⟩] []
      "" 7 50 none "drive" 45 ⟨⟨1, "", true, none, none⟩, none⟩ hm
  exact ⟨hm, h.1, h.2.1⟩

/-- C3: a candidate venue lacking a stored embedding is assigned similarity
exactly 0.5 and is never removed from the candidate set for that reason
(every candidate id still appears in the ranked list); when zero candidates
have embeddings, every candidate receives 0.5, the non-fatal operator
warning fires, and the request still returns a ranked result (of the usual
truncated length). -/
theorem C3_missing_embedding_neutral
    (candidateIds embedded : List Nat) (dist load : Nat → ℚ) (topN : Nat) :
    (∀ vid, vid ∉ embedded → simScore embedded dist vid = 1/2)
    ∧ (∀ vid ∈ candidateIds, ∃ p ∈ rankedAll (simScore embedded dist) load candidateIds,
        p.2 = vid)
    ∧ (embedded = [] →
        (∀ vid, simScore embedded dist vid = 1/2)
        ∧ noEmbeddingsWarning embedded = true
        ∧ (rankedTop (simScore embedded dist) load candidateIds topN).length
            = min topN candidateIds.length) := by
  refine ⟨?_, ?_, ?_⟩
  · intro vid hv
    unfold simScore
    split
    · rfl
    · rw [if_neg (by simpa using hv)]
  · intro vid hvid
    exact ⟨(finalScore (simScore embedded dist vid) (load vid), vid),
      mem_rankedAll.mpr ⟨hvid, rfl⟩, rfl⟩
  · rintro rfl
    exact ⟨fun vid => rfl, rfl, length_rankedTop _ _ _ _⟩

/-- Witness for C3: with no embedded candidate at all, candidate 1 keeps
similarity 0.5, appears in the ranked list, and the warning fires. -/
theorem C3_missing_embedding_neutral_witness :
    (1 : Nat) ∉ ([] : List Nat)
    ∧ simScore [] (fun _ => (0:ℚ)) 1 = 1/2
    ∧ (∃ p ∈ rankedAll (simScore [] (fun _ => (0:ℚ))) (fun _ => 0) [1], p.2 = 1)
    ∧ noEmbeddingsWarning [] = true
    ∧ (rankedTop (simScore [] (fun _ => (0:ℚ))) (fun _ => 0) [1] 3).length = min 3 1 := by
  have h := C3_missing_embedding_neutral [1] [] (fun _ => (0:ℚ)) (fun _ => 0) 3
  exact ⟨by simp, h.1 1 (by simp), h.2.1 1 (by simp), (h.2.2 rfl).2.1,
    by simpa using (h.2.2 rfl).2.2⟩

/-- Counterexample to C4 as stated: two malformed payloads on which the
travel-time resolver does NOT return unknown.  A 200 response whose body is
not valid JSON makes `data = resp.json()` — which sits outside the `try` —
raise `json.JSONDecodeError`, and a 200 response with payload
`{"routes": 3}` raises `TypeError` at `data["routes"][0]`, which the
`except (KeyError, IndexError)` clause does not catch.  Both exceptions
escape `_fetch_tomtom` and `get_travel_time` uncaught, so the whole
suggest request fails instead of that one venue being dropped. -/
theorem C4_counterexample :
    fetchTomtom ⟨200, none⟩ = Except.error PyExc.jsonDecodeError
    ∧ fetchTomtom ⟨200, some (Json.obj [("routes", Json.num 3)])⟩
        = Except.error PyExc.typeError :=
  ⟨rfl, rfl⟩

/-- C4 amended: on a non-200 routing response the resolver returns unknown
(`None`); a malformed payload is split by the `except (KeyError,
IndexError)` clause — a missing key or a missing/empty route entry is
caught and yields `None`, and such a venue alone is dropped from ranking
(the gate output equals the gate over the input with the failing venue
removed), the remaining venues still ranked and returned with the request
succeeding; but an invalid-JSON body (`resp.json()` is outside the `try`)
or a wrongly-typed payload (`TypeError` is not caught) raises out of the
resolver and fails the whole suggest request. -/
theorem C4_travel_failure_amended
    (resp : HttpResponse) (data : Json) (tt : Nat → Option ℚ)
    (maxTravelMinutes : Nat) (venues : List Venue) (vid : Nat)
    (hfail : tt vid = none) :
    (resp.status_code ≠ 200 → fetchTomtom resp = Except.ok none)
    ∧ (resp.status_code = 200 → resp.body = some data →
        (extractSeconds data = Except.error PyExc.keyError ∨
          extractSeconds data = Except.error PyExc.indexError) →
        fetchTomtom resp = Except.ok none)
    ∧ (∀ c ∈ travelGate true tt maxTravelMinutes venues,
        (truthy c.venue.lat && truthy c.venue.lng) = true → c.venue.id ≠ vid)
    ∧ travelGate true tt maxTravelMinutes venues
        = travelGate true tt maxTravelMinutes
            (venues.filter (fun v => !(v.id == vid && truthy v.lat && truthy v.lng)))
    ∧ (resp.status_code = 200 → resp.body = none →
        fetchTomtom resp = Except.error PyExc.jsonDecodeError)
    ∧ (resp.status_code = 200 → resp.body = some data →
        extractSeconds data = Except.error PyExc.typeError →
        fetchTomtom resp = Except.error PyExc.typeError) := by
  obtain ⟨rs, rb⟩ := resp
  refine ⟨?_, ?_, ?_, ?_, ?_, ?_⟩
  · intro h
    unfold fetchTomtom
    rw [if_pos h]
  · rintro rfl rfl hfl
    unfold fetchTomtom
    rw [if_neg (by norm_num)]
    rcases hfl with h | h <;> simp [h]
  · intro c hc htruthy hid
    obtain ⟨v, hv, hstep⟩ := mem_travelGate.mp hc
    have hcv := gateStep_venue hstep
    rw [hcv] at htruthy hid
    unfold gateStep at hstep
    rw [if_pos (by simp [Bool.and_eq_true] at htruthy ⊢; tauto)] at hstep
    rw [hid, hfail] at hstep
    cases hstep
  · unfold travelGate
    induction venues with
    | nil => rfl
    | cons v rest ih =>
      rw [List.filter_cons]
      by_cases hdrop : (v.id == vid && truthy v.lat && truthy v.lng) = true
      · have hstep : gateStep true tt maxTravelMinutes v = none := by
          have hd := hdrop
          simp only [Bool.and_eq_true, beq_iff_eq] at hd
          obtain ⟨⟨h1, h2⟩, h3⟩ := hd
          unfold gateStep
          rw [if_pos (by simp [h2, h3])]
          rw [h1, hfail]
        rw [if_neg (by simp [hdrop])]
        rw [List.filterMap_cons, hstep]
        exact ih
      · have hd : (v.id == vid && truthy v.lat && truthy v.lng) = false := by
          revert hdrop
          cases v.id == vid && truthy v.lat && truthy v.lng <;> simp
        rw [if_pos (by rw [hd]; rfl)]
        rw [List.filterMap_cons, List.filterMap_cons]
        cases gateStep true tt maxTravelMinutes v <;> simp [ih]
  · rintro rfl rfl
    unfold fetchTomtom
    rw [if_neg (by norm_num)]
  · rintro rfl rfl h
    unfold fetchTomtom
    rw [if_neg (by norm_num)]
    simp [h]

/-- Witness for C4 amended: a 404 response yields `None`; an empty JSON
object (`KeyError`) and an empty route list (`IndexError`) are caught and
yield `None`; and with venue 1's travel time unresolvable, venue 1 (with
nonzero coordinates) is dropped alone while venue 2 survives. -/
theorem C4_travel_failure_amended_witness :
    fetchTomtom ⟨404, none⟩ = Except.ok none
    ∧ fetchTomtom ⟨200, some (Json.obj [])⟩ = Except.ok none
    ∧ fetchTomtom ⟨200, some (Json.obj [("routes", Json.arr [])])⟩ = Except.ok none
    ∧ (∀ c ∈ travelGate true
          (fun i => if i = 1 then none else some 12) 45
          [⟨1, "x", true, some 1, some 1⟩, ⟨2, "x", true, some 1, some 1⟩],
        (truthy c.venue.lat && truthy c.venue.lng) = true → c.venue.id ≠ 1)
    ∧ travelGate true (fun i => if i = 1 then none else some 12) 45
          [⟨1, "x", true, some 1, some 1⟩, ⟨2, "x", true, some 1, some 1⟩]
        = travelGate true (fun i => if i = 1 then none else some 12) 45
            ([⟨1, "x", true, some 1, some 1⟩, ⟨2, "x", true, some 1, some 1⟩].filter
              (fun v => !(v.id == 1 && truthy v.lat && truthy v.lng))) := by
  have h1 := C4_travel_failure_amended ⟨404, none⟩ (Json.obj [])
      (fun i => if i = 1 then none else some 12) 45
      [⟨1, "x", true, some 1, some 1⟩, ⟨2, "x", true, some 1, some 1⟩] 1 rfl
  have h2 := C4_travel_failure_amended ⟨200, some (Json.obj [])⟩ (Json.obj [])
      (fun i => if i = 1 then none else some 12) 45
      [⟨1, "x", true, some 1, some 1⟩, ⟨2, "x", true, some 1, some 1⟩] 1 rfl
  have h3 := C4_travel_failure_amended ⟨200, some (Json.obj [("routes", Json.arr [])])⟩
      (Json.obj [("routes", Json.arr [])])
      (fun i => if i = 1 then none else some 12) 45
      [⟨1, "x", true, some 1, some 1⟩, ⟨2, "x", true, some 1, some 1⟩] 1 rfl
  exact ⟨h1.1 (by norm_num), h2.2.1 rfl rfl (Or.inl rfl),
    h3.2.1 rfl rfl (Or.inr rfl), h1.2.2.1, h1.2.2.2.1⟩

/-- C5: the geo-prefilter radius equals
`per_mode_speed_km_per_min(mode) * max_minutes * 1.8` with speeds walk
0.083, drive 0.5, transit 0.4 km/min and any unknown mode using drive's
speed; hence for every origin and mode the radius is monotonically
non-decreasing in the travel budget, and every venue retained by the
prefilter at budget `m1` is retained at any `m2 ≥ m1`. -/
theorem C5_radius_monotone
    (mode : String) (m1 m2 : Nat) (h12 : m1 ≤ m2)
    (havKm : ℚ → ℚ → ℚ → ℚ → ℚ) (venues : List Venue) (olat olng : ℚ)
    (v : Venue) :
    maxRadiusKm mode m1 = speedKmPerMin mode * m1 * (9/5)
    ∧ speedKmPerMin "walk" = 83/1000 ∧ speedKmPerMin "drive" = 1/2
    ∧ speedKmPerMin "transit" = 2/5
    ∧ (mode ≠ "walk" → mode ≠ "drive" → mode ≠ "transit" →
        speedKmPerMin mode = speedKmPerMin "drive")
    ∧ maxRadiusKm mode m1 ≤ maxRadiusKm mode m2
    ∧ (v ∈ prefilterByDistance havKm venues olat olng mode m1 →
        v ∈ prefilterByDistance havKm venues olat olng mode m2) := by
  have hmono : maxRadiusKm mode m1 ≤ maxRadiusKm mode m2 := by
    unfold maxRadiusKm safetyFactor
    have hs := (speedKmPerMin_pos mode).le
    have hm : (m1 : ℚ) ≤ (m2 : ℚ) := by exact_mod_cast h12
    have h1 : speedKmPerMin mode * m1 ≤ speedKmPerMin mode * m2 :=
      mul_le_mul_of_nonneg_left hm hs
    nlinarith
  refine ⟨rfl, by simp [speedKmPerMin], by simp [speedKmPerMin],
    by simp [speedKmPerMin], ?_, hmono, ?_⟩
  · intro h1 h2 h3
    simp [speedKmPerMin, h1, h2, h3]
  · intro hv
    obtain ⟨hmem, la, ln, hla, hln, hle⟩ := mem_prefilter_iff.mp hv
    exact mem_prefilter_iff.mpr ⟨hmem, la, ln, hla, hln, hle.trans hmono⟩

/-- Witness for C5: for walking, budgets 3 ≤ 5 give radii 0.4482 ≤ 0.747,
and a venue 0.4 km away survives at both budgets. -/
theorem C5_radius_monotone_witness :
    (3 : Nat) ≤ 5
    ∧ maxRadiusKm "walk" 3 ≤ maxRadiusKm "walk" 5
    ∧ (⟨1, "x", true, some 1, some 2⟩ : Venue) ∈
        prefilterByDistance (fun _ _ _ _ => 2/5) [⟨1, "x", true, some 1, some 2⟩]
          0 0 "walk" 3
    ∧ (⟨1, "x", true, some 1, some 2⟩ : Venue) ∈
        prefilterByDistance (fun _ _ _ _ => 2/5) [⟨1, "x", true, some 1, some 2⟩]
          0 0 "walk" 5 := by
  have h := C5_radius_monotone "walk" 3 5 (by norm_num) (fun _ _ _ _ => (2:ℚ)/5)
      [⟨1, "x", true, some 1, some 2⟩] 0 0 ⟨1, "x", true, some 1, some 2⟩
  have hm : (⟨1, "x", true, some 1, some 2⟩ : Venue) ∈
      prefilterByDistance (fun _ _ _ _ => (2:ℚ)/5) [⟨1, "x", true, some 1, some 2⟩]
        0 0 "walk" 3 :=
    mem_prefilter_iff.mpr ⟨by simp, 1, 2, rfl, rfl, by
      norm_num [maxRadiusKm, speedKmPerMin, safetyFactor]⟩
  exact ⟨by norm_num, h.2.2.2.2.2.1, hm, h.2.2.2.2.2.2 hm⟩

/-- C9: with an origin supplied, a candidate venue whose latitude or
longitude equals exactly 0.0 bypasses the travel-time gate — the code tests
coordinate truthiness, not presence — so it is kept with
`travel_minutes = None` whatever the travel-time oracle and budget say; the
gate output does not depend on the oracle at such venues (they are never
queried); and by contrast a venue with two truthy coordinates survives only
with a resolved travel time `≤ max_travel_minutes`. -/
theorem C9_zero_coordinate_bypass
    (tt tt' : Nat → Option ℚ) (maxTravelMinutes : Nat) (venues : List Venue)
    (v : Venue) (hv : v ∈ venues) (hzero : v.lat = some 0 ∨ v.lng = some 0) :
    (⟨v, none⟩ : CandidateVenue) ∈ travelGate true tt maxTravelMinutes venues
    ∧ ((∀ w ∈ venues, (truthy w.lat && truthy w.lng) = true → tt w.id = tt' w.id) →
        travelGate true tt maxTravelMinutes venues
          = travelGate true tt' maxTravelMinutes venues)
    ∧ (∀ c ∈ travelGate true tt maxTravelMinutes venues,
        (truthy c.venue.lat && truthy c.venue.lng) = true →
        ∃ m, tt c.venue.id = some m ∧ m ≤ (maxTravelMinutes : ℚ) ∧
          c.travel_minutes = some m) := by
  refine ⟨?_, travelGate_congr, ?_⟩
  · refine mem_travelGate.mpr ⟨v, hv, ?_⟩
    unfold gateStep
    rw [if_neg ?_]
    rcases hzero with h | h <;> simp [h, truthy]
  · intro c hc htruthy
    obtain ⟨w, hw, hstep⟩ := mem_travelGate.mp hc
    have hcv := gateStep_venue hstep
    rw [hcv] at htruthy
    unfold gateStep at hstep
    rw [if_pos (by simp [Bool.and_eq_true] at htruthy ⊢; tauto)] at hstep
    split at hstep
    · cases hstep
    · next m heq =>
      split at hstep
      · cases hstep
      · next hlt =>
        cases hstep
        exact ⟨m, heq, le_of_not_lt hlt, rfl⟩

/-- Witness for C9: venue 1 sits at longitude exactly 0.0; it passes the
gate untouched with `travel_minutes = none` even though the travel-time
oracle would fail for it, and the gate output is unchanged when that
oracle is replaced wholesale. -/
theorem C9_zero_coordinate_bypass_witness :
    (⟨⟨1, "x", true, some 5, some 0⟩, none⟩ : CandidateVenue) ∈
      travelGate true (fun _ => none) 45 [⟨1, "x", true, some 5, some 0⟩]
    ∧ travelGate true (fun _ => none) 45 [⟨1, "x", true, some 5, some 0⟩]
        = travelGate true (fun _ => some 1) 45 [⟨1, "x", true, some 5, some 0⟩] := by
  have h := C9_zero_coordinate_bypass (fun _ => none) (fun _ => some 1) 45
      [⟨1, "x", true, some 5, some 0⟩] ⟨1, "x", true, some 5, some 0⟩
      (List.mem_singleton.mpr rfl) (Or.inr rfl)
  exact ⟨h.1, h.2.1 (by decide)⟩

/-- C10: the whole-pipeline suggest cache key maps an absent origin to
coordinate 0 (`round(req.origin_lat or 0, 3)`), so a request with no origin
and the same request with origin (0.0, 0.0) produce the same cache key and
the cache lookup returns the same stored entry for both — one can be
served the result computed for the other — even though the pipeline treats
them differently (with origin (0,0) the geo prefilter and travel gate run,
e.g. dropping venues without coordinates; with no origin they do not). -/
theorem C10_cache_key_origin_collision (req : SuggestRequest) :
    suggestCacheKey { req with origin_lat := none, origin_lng := none }
      = suggestCacheKey { req with origin_lat := some 0, origin_lng := some 0 }
    ∧ (∀ store : (String × Nat × Nat × ℚ × ℚ × String × Nat ×
          String × String × String × String × String × Nat) →
            Option (List (ℚ × Nat)),
        suggestCacheLookup store { req with origin_lat := none, origin_lng := none }
          = suggestCacheLookup store { req with origin_lat := some 0, origin_lng := some 0 })
    ∧ hardFilteredCandidates (fun _ _ _ _ => 0) (fun _ => none)
        [⟨1, "", true, none, none⟩] [⟨5, 1, 0, 10, 100, true, 4⟩] [] "" 7 50
        none "drive" 45
      ≠ hardFilteredCandidates (fun _ _ _ _ => 0) (fun _ => none)
        [⟨1, "", true, none, none⟩] [⟨5, 1, 0, 10, 100, true, 4⟩] [] "" 7 50
        (some (0, 0)) "drive" 45 := by
  have hkey : suggestCacheKey { req with origin_lat := none, origin_lng := none }
      = suggestCacheKey { req with origin_lat := some 0, origin_lng := some 0 } := by
    simp [suggestCacheKey, pyOrZero]
  refine ⟨hkey, fun store => ?_, by decide⟩
  unfold suggestCacheLookup
  rw [hkey]

/-- Counterexample to C6 as stated: candidates 1 and 2 have identical
similarity scores (both 0 — a cosine distance of 0 is attainable), venue
2's load factor (0) is strictly lower than venue 1's (0.5), yet the ranked
ascending order is `[(0, 1), (0, 2)]` — venue 1 first: with tied final
scores Python's tuple sort falls back to ascending venue id, so the
lower-load venue is NOT placed ahead. -/
theorem C6_counterexample :
    ((fun v => if v = 1 then (1:ℚ)/2 else 0) 2 < (fun v => if v = 1 then (1:ℚ)/2 else 0) 1)
    ∧ rankedAll (fun _ => 0) (fun v => if v = 1 then (1:ℚ)/2 else 0) [1, 2]
        = [(0, 1), (0, 2)] := by
  constructor
  · norm_num
  · norm_num [rankedAll, scoredList, finalScore, maxLoadPenalty,
      List.insertionSort, List.orderedInsert, scoreLex]

/-- C6 amended: for two candidate venues with identical similarity `s`, if
`s ≥ 0` (pgvector cosine distances are nonnegative) the venue with the
strictly lower load factor receives a final score no greater than the
other's; if moreover `s > 0` its score is strictly lower and every
occurrence of it in the ranked ascending order precedes every occurrence of
the other venue.  (At `s = 0` exactly, the scores tie and the order falls
back to ascending venue id — see the counterexample.) -/
theorem C6_equal_similarity_lower_load
    (sim load : Nat → ℚ) (ids : List Nat) (va vb : Nat)
    (hva : va ∈ ids) (hvb : vb ∈ ids)
    (hsim : sim va = sim vb) (hnn : 0 ≤ sim va) (hload : load va < load vb) :
    finalScore (sim va) (load va) ≤ finalScore (sim vb) (load vb)
    ∧ (0 < sim va →
        finalScore (sim va) (load va) < finalScore (sim vb) (load vb)
        ∧ ∀ i j : Fin (rankedAll sim load ids).length,
            ((rankedAll sim load ids).get i).2 = va →
            ((rankedAll sim load ids).get j).2 = vb → i < j) := by
  have hmul : 1 + load va * maxLoadPenalty < 1 + load vb * maxLoadPenalty := by
    rw [maxLoadPenalty]
    nlinarith
  constructor
  · rw [finalScore, finalScore, ← hsim]
    exact mul_le_mul_of_nonneg_left hmul.le hnn
  · intro hpos
    have hstrict : finalScore (sim va) (load va) < finalScore (sim vb) (load vb) := by
      rw [finalScore, finalScore, ← hsim]
      exact mul_lt_mul_of_pos_left hmul hpos
    refine ⟨hstrict, ?_⟩
    intro i j hi hj
    have hmi := mem_rankedAll.mp (List.get_mem (rankedAll sim load ids) i.1 i.2)
    have hmj := mem_rankedAll.mp (List.get_mem (rankedAll sim load ids) j.1 j.2)
    rw [hi] at hmi
    rw [hj] at hmj
    by_contra hij
    push_neg at hij
    rcases lt_or_eq_of_le hij with hlt | heq
    · have hrel := (sorted_rankedAll sim load ids).rel_get_of_lt hlt
      rcases hrel with hlt2 | ⟨heq2, -⟩
      · rw [hmj.2, hmi.2] at hlt2
        linarith
      · rw [hmj.2, hmi.2] at heq2
        linarith
    · have : va = vb := by rw [← hi, ← hj, heq]
      rw [this] at hload
      exact absurd hload (lt_irrefl _)

/-- Witness for C6 amended: similarity 0.1 for both venues, loads 0 < 0.5
— the lower-load venue's score is no greater, indeed strictly lower. -/
theorem C6_equal_similarity_lower_load_witness :
    finalScore ((1:ℚ)/10) 0 ≤ finalScore ((1:ℚ)/10) (1/2)
    ∧ finalScore ((1:ℚ)/10) 0 < finalScore ((1:ℚ)/10) (1/2) := by
  have h := C6_equal_similarity_lower_load (fun _ => (1:ℚ)/10)
      (fun v => if v = 1 then (0:ℚ) else 1/2) [2, 1] 1 2
      (by simp) (by simp) rfl (by norm_num) (by norm_num)
  exact ⟨by simpa using h.1, by simpa using (h.2 (by norm_num)).1⟩

/-- Counterexample to C7 as stated: with the routing provider configured to
an unrecognised name, nothing validates it at startup — `get_travel_time`,
request-handling code, raises the unknown-provider `ValueError` at the
first travel-time cache miss, i.e. the configuration failure surfaces as a
per-request error. -/
theorem C7_counterexample :
    getTravelTime none "bing" (fun _ => some 5)
      = Except.error "Unknown routing provider: bing" := rfl

/-- C7 amended: an unknown *embedding*-provider name is fatal at startup —
the provider singleton is built at module import and `_build_provider`
raises exactly when the lowercased name is neither "local" nor "gemini".
An unknown *routing*-provider name, by contrast, is not checked at startup:
`get_travel_time` raises the unknown-provider error at request time
whenever the travel-time cache misses (a fresh cache hit masks it), while
with a recognised routing provider no unknown-provider error is ever raised
during request handling. -/
theorem C7_provider_config_amended
    (name provider : String) (cacheFresh : Option ℚ) (fetch : String → Option ℚ) :
    ((∃ e, buildEmbeddingProvider name = Except.error e) ↔
        lowerChars name ≠ "local".data ∧ lowerChars name ≠ "gemini".data)
    ∧ ((provider = "tomtom" ∨ provider = "openrouteservice" ∨ provider = "mapbox") →
        ∃ r, getTravelTime cacheFresh provider fetch = Except.ok r)
    ∧ (provider ≠ "tomtom" → provider ≠ "openrouteservice" → provider ≠ "mapbox" →
        getTravelTime none provider fetch
          = Except.error ("Unknown routing provider: " ++ provider)
        ∧ ∀ m : ℚ, getTravelTime (some m) provider fetch = Except.ok (some m)) := by
  refine ⟨?_, ?_, ?_⟩
  · unfold buildEmbeddingProvider
    by_cases h1 : lowerChars name = "local".data
    · simp [h1]
    · by_cases h2 : lowerChars name = "gemini".data <;> simp [h1, h2]
  · intro hp
    rcases cacheFresh with _ | m
    · rcases hp with rfl | rfl | rfl
      · exact ⟨fetch "tomtom", rfl⟩
      · exact ⟨fetch "openrouteservice", rfl⟩
      · exact ⟨fetch "mapbox", rfl⟩
    · exact ⟨some m, rfl⟩
  · intro h1 h2 h3
    constructor
    · unfold getTravelTime
      rw [if_neg h1, if_neg h2, if_neg h3]
    · intro m
      rfl

/-- Witness for C7 amended: provider name "foo" is rejected at startup;
provider "tomtom" never raises; provider "bing2" raises on a cache miss but
is masked by a fresh cache hit. -/
theorem C7_provider_config_amended_witness :
    (∃ e, buildEmbeddingProvider "foo" = Except.error e)
    ∧ (∃ r, getTravelTime none "tomtom" (fun _ => none) = Except.ok r)
    ∧ getTravelTime none "bing2" (fun _ => none)
        = Except.error ("Unknown routing provider: " ++ "bing2")
    ∧ getTravelTime (some 7) "bing2" (fun _ => none) = Except.ok (some 7) := by
  have ha := C7_provider_config_amended "foo" "tomtom" none (fun _ => none)
  have hb := C7_provider_config_amended "foo" "bing2" none (fun _ => none)
  have hu := hb.2.2 (by decide) (by decide) (by decide)
  exact ⟨ha.1.mpr ⟨by decide, by decide⟩, ha.2.1 (Or.inl rfl), hu.1, hu.2 7⟩

/-- Counterexample to C8 as stated: a suggest invocation that runs the
embedding-similarity stage — one candidate survives the hard filters and a
ranked result of length 1 is returned — but in which no candidate has an
embedding row writes NO intent-embedding log row even with a perfectly
healthy log store: the `emb_count == 0` branch skips
`log_intent_embedding` entirely, so not every invocation appends a row. -/
theorem C8_counterexample :
    ((suggestVenues (fun _ _ _ _ => 0) (fun _ => none)
        [⟨1, "", true, none, none⟩] [⟨5, 1, 0, 10, 100, true, 4⟩] []
        "" 7 50 none "drive" 45 [] (fun _ => 0) [] 3 true).1).length = 1
    ∧ (suggestVenues (fun _ _ _ _ => 0) (fun _ => none)
        [⟨1, "", true, none, none⟩] [⟨5, 1, 0, 10, 100, true, 4⟩] []
        "" 7 50 none "drive" 45 [] (fun _ => 0) [] 3 true).2 = false := by
  exact ⟨rfl, rfl⟩

/-- C8 amended: the intent-embedding log row is written iff at least one
hard-filtered candidate has a stored embedding and the insert itself
succeeds (`log_intent_embedding` is skipped both when no candidate
survives and when no candidate has an embedding); the write is
fire-and-forget — the ranked result returned to the caller is identical
whether or not the log write succeeds. -/
theorem C8_log_write_isolated
    (havKm : ℚ → ℚ → ℚ → ℚ → ℚ) (tt : Nat → Option ℚ)
    (venues : List Venue) (slots : List VenueSlot) (blackouts : List VenueBlackout)
    (city : String) (targetDate targetTime : Nat)
    (origin : Option (ℚ × ℚ)) (travelMode : String) (maxTravelMinutes : Nat)
    (embeddedAll : List Nat) (dist : Nat → ℚ) (bookings : List Booking)
    (topN : Nat) (logOk : Bool) :
    (suggestVenues havKm tt venues slots blackouts city targetDate targetTime
        origin travelMode maxTravelMinutes embeddedAll dist bookings topN logOk).1
      = (suggestVenues havKm tt venues slots blackouts city targetDate targetTime
          origin travelMode maxTravelMinutes embeddedAll dist bookings topN true).1
    ∧ (suggestVenues havKm tt venues slots blackouts city targetDate targetTime
        origin travelMode maxTravelMinutes embeddedAll dist bookings topN logOk).2
      = (!(embeddedCandidatesOf havKm tt venues slots blackouts city targetDate
            targetTime origin travelMode maxTravelMinutes embeddedAll).isEmpty
          && logOk) := by
  by_cases h : (candidateIdsOf havKm tt venues slots blackouts city targetDate
      targetTime origin travelMode maxTravelMinutes).isEmpty
  · have hnil := List.isEmpty_iff.mp h
    constructor
    · simp [suggestVenues, h]
    · simp [suggestVenues, h, embeddedCandidatesOf, hnil]
  · constructor
    · simp [suggestVenues, h]
    · simp [suggestVenues, h]

end TwoTable
